import Mathlib

/-!
Verification of the SprintSync task-and-project management API.

This file gives a shallow embedding of the persistence layer (users,
projects, project members, tasks stored as relational rows), the
Authorization Resolver functions of `app/crud/task.py`,
`app/crud/project.py` and `app/crud/project_member.py`, and the HTTP
request handlers of `app/routers/tasks.py`, `app/routers/project_members.py`
and `app/routers/ai.py`, and proves/refutes the specified properties.

Modelling conventions:
* UUIDs are opaque identifiers, modelled as `Nat`.
* A SQLAlchemy `db.query(T).filter(...).first()` is `List.find?` on the
  corresponding table list; `.all()` with `offset/limit` is
  `filter`/`drop`/`take`.
* Python ints are `Int`; `datetime` columns are `Int` timestamps.  The
  ORM-managed `created_at`/`updated_at` bookkeeping (`default=`/`onupdate=`)
  is ambient machinery of the out-of-scope ORM layer and row timestamps are
  carried but not advanced by the embedded mutations.
* Handlers raising `HTTPException` are functions into `Except HttpError _`.
* The repository snapshot still declares the task assignee column under its
  pre-migration name `assigned_to_id` in `app/models/task.py`, while the
  alembic migration `1fe741ec39eb` renames it to `owner_id` and every CRUD
  function, router and relationship (`User.owned_tasks` uses
  `foreign_keys="Task.owner_id"`) operates on `owner_id`.  The embedding
  uses the operative post-migration field name `owner_id`.
-/

namespace SprintSync

/-- Opaque identifier (UUID) of a row. -/
abbrev UUID := Nat

/-- `TaskStatus` enum of `app/models/task.py` (values "todo",
"in_progress", "done"). -/
inductive TaskStatus
  | todo
  | in_progress
  | done
deriving DecidableEq, Repr

/-- `ProjectRole` enum of `app/models/project_member.py` (values "owner",
"admin", "member"). -/
inductive ProjectRole
  | owner
  | admin
  | member
deriving DecidableEq, Repr

/-- A row of the `users` table (`app/models/user.py`); only the columns the
verified operations consult are carried. -/
structure User where
  id : UUID
  is_admin : Bool
deriving DecidableEq, Repr

/-- A row of the `projects` table (`app/models/project.py`). -/
structure Project where
  id : UUID
  name : String
  description : Option String
  is_active : Bool
  owner_id : UUID
deriving DecidableEq, Repr

/-- A row of the `project_members` table (`app/models/project_member.py`). -/
structure ProjectMember where
  id : UUID
  project_id : UUID
  user_id : UUID
  role : ProjectRole
deriving DecidableEq, Repr

/-- A row of the `tasks` table; `user_id` is the immutable creator,
`owner_id` the nullable assignee (see the file-level note on the
`assigned_to_id` → `owner_id` rename). -/
structure Task where
  id : UUID
  title : String
  description : Option String
  status : TaskStatus
  total_minutes : Int
  user_id : UUID
  project_id : Option UUID
  owner_id : Option UUID
  created_at : Int
  updated_at : Int
deriving DecidableEq, Repr

/-- The relational store: one list per table. -/
structure DB where
  users : List User
  projects : List Project
  members : List ProjectMember
  tasks : List Task
deriving DecidableEq, Repr

/-- HTTP error outcomes raised by the handlers (FastAPI `HTTPException`
status codes used by this codebase). -/
inductive HttpError
  | badRequest
  | forbidden
  | notFound
  | internalError
deriving DecidableEq, Repr

/-! ### CRUD queries (`app/crud/task.py`, `app/crud/project.py`,
`app/crud/project_member.py`) -/

/-- `get_task`: `db.query(Task).filter(Task.id == task_id).first()`. -/
def get_task (db : DB) (task_id : UUID) : Option Task :=
  db.tasks.find? (fun t => t.id == task_id)

/-- `db.query(User).filter(User.id == user_id).first()` as used inside
`can_assign_task` / `can_unassign_task`. -/
def get_user (db : DB) (user_id : UUID) : Option User :=
  db.users.find? (fun u => u.id == user_id)

/-- `get_project`: `db.query(Project).filter(Project.id == project_id).first()`. -/
def get_project (db : DB) (project_id : UUID) : Option Project :=
  db.projects.find? (fun p => p.id == project_id)

/-- `get_project_member_by_user_and_project` of `app/crud/project_member.py`. -/
def get_project_member_by_user_and_project (db : DB) (user_id project_id : UUID) :
    Option ProjectMember :=
  db.members.find? (fun m => m.user_id == user_id && m.project_id == project_id)

/-- `is_project_owner` of `app/crud/project.py`: a `Project` row with this id
and this `owner_id` exists. -/
def is_project_owner (db : DB) (project_id user_id : UUID) : Bool :=
  (db.projects.find? (fun p => p.id == project_id && p.owner_id == user_id)).isSome

/-- `is_project_member` of `app/crud/project.py`: some `ProjectMember` row
(any role) links this user to this project.  (Note: unlike the owner-or-row
reading in the prose spec, the code checks only for a membership row.) -/
def is_project_member (db : DB) (project_id user_id : UUID) : Bool :=
  (db.members.find? (fun m => m.project_id == project_id && m.user_id == user_id)).isSome

/-- `is_project_admin` of `app/crud/project.py`: project owner, or a
membership row with role ADMIN. -/
def is_project_admin (db : DB) (project_id user_id : UUID) : Bool :=
  if (db.projects.find? (fun p => p.id == project_id && p.owner_id == user_id)).isSome then
    true
  else
    (db.members.find? (fun m =>
      m.project_id == project_id && m.user_id == user_id && m.role == ProjectRole.admin)).isSome

/-- `can_manage_members` of `app/crud/project_member.py` (same decision as
`is_project_admin`: owner, or ADMIN member). -/
def can_manage_members (db : DB) (project_id user_id : UUID) : Bool :=
  if (db.projects.find? (fun p => p.id == project_id && p.owner_id == user_id)).isSome then
    true
  else
    (db.members.find? (fun m =>
      m.project_id == project_id && m.user_id == user_id && m.role == ProjectRole.admin)).isSome

/-- `get_user_role` of `app/crud/project_member.py`: OWNER if the user owns
the project row, else the role of their membership row, else `None`. -/
def get_user_role (db : DB) (project_id user_id : UUID) : Option ProjectRole :=
  if (db.projects.find? (fun p => p.id == project_id && p.owner_id == user_id)).isSome then
    some ProjectRole.owner
  else
    (db.members.find? (fun m => m.project_id == project_id && m.user_id == user_id)).map
      (fun m => m.role)

/-- `can_view_task` of `app/crud/task.py`: absent task → `False`; creator;
assignee; else, for a project task, project owner or any membership row. -/
def can_view_task (db : DB) (task_id user_id : UUID) : Bool :=
  match get_task db task_id with
  | none => false
  | some task =>
    if task.user_id == user_id then true
    else if task.owner_id == some user_id then true
    else
      match task.project_id with
      | some pid =>
        if is_project_owner db pid user_id then true
        else (db.members.find? (fun m => m.project_id == pid && m.user_id == user_id)).isSome
      | none => false

/-- `can_edit_task` of `app/crud/task.py`: absent task → `False`; creator;
assignee; else, for a project task, project owner or project admin. -/
def can_edit_task (db : DB) (task_id user_id : UUID) : Bool :=
  match get_task db task_id with
  | none => false
  | some task =>
    if task.user_id == user_id then true
    else if task.owner_id == some user_id then true
    else
      match task.project_id with
      | some pid =>
        if is_project_owner db pid user_id then true
        else is_project_admin db pid user_id
      | none => false

/-- `can_assign_task` of `app/crud/task.py`: absent task → `False`; a
system admin (the `users` row with this id has `is_admin`) may always
assign; else, for a project task, project owner or project admin. -/
def can_assign_task (db : DB) (task_id user_id : UUID) : Bool :=
  match get_task db task_id with
  | none => false
  | some task =>
    if (match get_user db user_id with
        | some u => u.is_admin
        | none => false) then true
    else
      match task.project_id with
      | some pid =>
        if is_project_owner db pid user_id then true
        else is_project_admin db pid user_id
      | none => false

/-- `can_unassign_task` of `app/crud/task.py`: absent task → `False`;
current assignee; creator; system admin; else, for a project task, project
owner or project admin. -/
def can_unassign_task (db : DB) (task_id user_id : UUID) : Bool :=
  match get_task db task_id with
  | none => false
  | some task =>
    if task.owner_id == some user_id then true
    else if task.user_id == user_id then true
    else if (match get_user db user_id with
        | some u => u.is_admin
        | none => false) then true
    else
      match task.project_id with
      | some pid => is_project_owner db pid user_id || is_project_admin db pid user_id
      | none => false

/-! ### Spec-side resolver predicates (for the refinement claims)

These two definitions follow the wording of the specification, to be
compared with the code-derived `can_view_task` / `can_edit_task` above. -/

/-- Spec wording: viewable iff creator, or assignee, or the task's project
is set and the user is a member of it (any role, including owner). -/
def spec_can_view_task (db : DB) (t : Task) (uid : UUID) : Prop :=
  t.user_id = uid ∨ t.owner_id = some uid ∨
    (∃ pid, t.project_id = some pid ∧
      ((∃ p ∈ db.projects, p.id = pid ∧ p.owner_id = uid) ∨
       (∃ m ∈ db.members, m.project_id = pid ∧ m.user_id = uid)))

/-- Spec wording: editable iff creator, or assignee, or the task's project
is set and the user is that project's owner or an ADMIN member of it. -/
def spec_can_edit_task (db : DB) (t : Task) (uid : UUID) : Prop :=
  t.user_id = uid ∨ t.owner_id = some uid ∨
    (∃ pid, t.project_id = some pid ∧
      ((∃ p ∈ db.projects, p.id = pid ∧ p.owner_id = uid) ∨
       (∃ m ∈ db.members, m.project_id = pid ∧ m.user_id = uid ∧
         m.role = ProjectRole.admin)))

/-! ### Task store mutations -/

/-- Replace the task row(s) with the given id (a SQLAlchemy mutation of the
fetched row followed by `db.commit()`). -/
def DB.replaceTask (db : DB) (task_id : UUID) (t' : Task) : DB :=
  { db with tasks := db.tasks.map (fun t => if t.id == task_id then t' else t) }

/-- Replace the membership row(s) with the given id. -/
def DB.replaceMember (db : DB) (member_id : UUID) (m' : ProjectMember) : DB :=
  { db with members := db.members.map (fun m => if m.id == member_id then m' else m) }

/-- Body of a `POST /tasks/` request (`TaskCreate` schema: title and
optional description). -/
structure TaskCreate where
  title : String
  description : Option String
deriving DecidableEq, Repr

/-- `create_task` of `app/crud/task.py`.  The fresh row id and the clock
reading that the ORM column defaults draw are passed explicitly.  The
assignee defaults to the creator: `owner_id=owner_id or user_id`, and a
`UUID` value is never falsy in Python, so `or` reads as `Option.getD`. -/
def create_task (db : DB) (task : TaskCreate) (user_id : UUID)
    (project_id owner_id : Option UUID) (new_task_id : UUID) (now : Int) : DB × Task :=
  let db_task : Task :=
    { id := new_task_id
      title := task.title
      description := task.description
      status := TaskStatus.todo
      total_minutes := 0
      user_id := user_id
      project_id := project_id
      owner_id := some (owner_id.getD user_id)
      created_at := now
      updated_at := now }
  ({ db with tasks := db.tasks ++ [db_task] }, db_task)

/-! ### Task request handlers (`app/routers/tasks.py`) -/

/-- Handler of `GET /tasks/{task_id}`.  Note the order: the view-permission
check (ORed with the caller's global-admin flag) runs before the task is
fetched and the missing-task check is made. -/
def get_task_endpoint (db : DB) (task_id : UUID) (current_user : User) :
    Except HttpError Task :=
  if !can_view_task db task_id current_user.id && !current_user.is_admin then
    .error .forbidden
  else
    match get_task db task_id with
    | none => .error .notFound
    | some task => .ok task

/-- Body of a PATCH/PUT `/tasks/{task_id}` request.  The `TaskUpdate`
pydantic schema in the snapshot declares `title`, `description`, `status`
and `total_minutes`; the PATCH and PUT handlers additionally read
`task_update.owner_id` as an optional field (routers/tasks.py lines 261 and
334), so it is carried here (the schema file predates the
`assigned_to_id` → `owner_id` assignment surface, like `app/models/task.py`,
see the file-level note). -/
structure TaskUpdate where
  title : Option String
  description : Option String
  status : Option TaskStatus
  total_minutes : Option Int
  owner_id : Option UUID
deriving DecidableEq, Repr

/-- The scalar-field block shared by the PATCH and PUT task handlers:
"update fields if provided" for `title`, `description`, `status` and
`total_minutes`. -/
def applyScalarUpdates (task_update : TaskUpdate) (task : Task) : Task :=
  let task :=
    match task_update.title with
    | some s => { task with title := s }
    | none => task
  let task :=
    match task_update.description with
    | some s => { task with description := some s }
    | none => task
  let task :=
    match task_update.status with
    | some st => { task with status := st }
    | none => task
  match task_update.total_minutes with
  | some m => { task with total_minutes := m }
  | none => task

/-- Shared body of the `PATCH /tasks/{task_id}` and `PUT /tasks/{task_id}`
handlers (their source bodies are verbatim identical).  The second
component of the result records whether `can_unassign_task` was consulted,
instrumenting the nested `if task_update.owner_id is None` branch that sits
inside `if task_update.owner_id is not None`. -/
def task_update_handler (db : DB) (task_id : UUID) (task_update : TaskUpdate)
    (current_user : User) : Except HttpError (DB × Task) × Bool :=
  if !can_edit_task db task_id current_user.id && !current_user.is_admin then
    (.error .forbidden, false)
  else
    match get_task db task_id with
    | none => (.error .notFound, false)
    | some task =>
      -- "Handle task assignment if owner_id is provided"
      let gate : Except HttpError Unit × Bool :=
        if task_update.owner_id.isSome then
          if task_update.owner_id.isNone then
            -- "Unassigning task" (nested under the `isSome` test above)
            (if !can_unassign_task db task_id current_user.id then .error .forbidden
             else .ok (), true)
          else
            -- "Assigning task"
            (if !can_assign_task db task_id current_user.id then .error .forbidden
             else .ok (), false)
        else (.ok (), false)
      match gate with
      | (.error e, consulted) => (.error e, consulted)
      | (.ok _, consulted) =>
        let task1 :=
          if task_update.owner_id.isSome then { task with owner_id := task_update.owner_id }
          else task
        let task5 := applyScalarUpdates task_update task1
        (.ok (db.replaceTask task_id task5, task5), consulted)

/-- Handler of `PATCH /tasks/{task_id}` (`partial_update_task`). -/
def partial_update_task (db : DB) (task_id : UUID) (task_update : TaskUpdate)
    (current_user : User) : Except HttpError (DB × Task) × Bool :=
  task_update_handler db task_id task_update current_user

/-- Handler of `PUT /tasks/{task_id}` (`update_task_endpoint`); its source
body is identical to the PATCH handler's. -/
def update_task_endpoint (db : DB) (task_id : UUID) (task_update : TaskUpdate)
    (current_user : User) : Except HttpError (DB × Task) × Bool :=
  task_update_handler db task_id task_update current_user

/-- Handler of `PATCH /tasks/{task_id}/time` (`add_time_to_task`).  The
`minutes` query parameter is declared `Query(..., ge=0)`, so FastAPI
rejects a negative value before the handler body runs (modelled as
`badRequest`). -/
def add_time_to_task (db : DB) (task_id : UUID) (minutes : Int)
    (current_user : User) : Except HttpError (DB × Task) :=
  if minutes < 0 then .error .badRequest
  else if !can_edit_task db task_id current_user.id && !current_user.is_admin then
    .error .forbidden
  else
    match get_task db task_id with
    | none => .error .notFound
    | some task =>
      let task' := { task with total_minutes := task.total_minutes + minutes }
      .ok (db.replaceTask task_id task', task')

/-- Handler of `PATCH /tasks/{task_id}/assign` (`assign_task`).  This is
the one task handler that fetches the task (404) before any permission
check; the admin override is not ORed here, it lives inside
`can_assign_task` / `can_unassign_task`. -/
def assign_task (db : DB) (task_id : UUID) (owner_id : Option UUID)
    (current_user : User) : Except HttpError (DB × Task) :=
  match get_task db task_id with
  | none => .error .notFound
  | some task =>
    let allowed :=
      match owner_id with
      | none => can_unassign_task db task_id current_user.id
      | some _ => can_assign_task db task_id current_user.id
    if !allowed then .error .forbidden
    else
      let task' := { task with owner_id := owner_id }
      .ok (db.replaceTask task_id task', task')

/-! ### Task listing and its sorting step (`list_user_tasks`) -/

/-- The string value of a `TaskStatus` (the enum is a `str` subclass). -/
def statusValue : TaskStatus → String
  | .todo => "todo"
  | .in_progress => "in_progress"
  | .done => "done"

/-- `valid_sort_fields` of `list_user_tasks`; each of these exists as a
`Task` attribute, so the `hasattr(Task, sort_by)` conjunct is true exactly
on this list. -/
def validSortFields : List String :=
  ["created_at", "updated_at", "title", "status", "total_minutes"]

/-- Python `str.lower()` as applied to the `sort_order` query parameter
(written over the character list so that it evaluates inside proofs). -/
def strLower (s : String) : String := ⟨s.data.map Char.toLower⟩

/-- A Python sort key as produced by `getattr(x, sort_by) or ''`: either a
string or a number (comparing the two kinds raises `TypeError`). -/
inductive PyVal
  | str (s : String)
  | num (n : Int)
deriving DecidableEq, Repr

/-- Python `<=` on sort keys for same-kind values.  CPython raises
`TypeError` on a `str`/`int` comparison; the embedding totalises this by
ordering all strings before all numbers, and every theorem below stays
inside the same-kind region (`keysComparable`) where this choice is never
exercised. -/
def PyVal.le : PyVal → PyVal → Bool
  | .str a, .str b => decide (a ≤ b)
  | .num a, .num b => decide (a ≤ b)
  | .str _, .num _ => true
  | .num _, .str _ => false

/-- Whether a sort key is a string. -/
def PyVal.isStr : PyVal → Bool
  | .str _ => true
  | .num _ => false

/-- The sort key `getattr(x, sort_by) or ''` of a task.  A `datetime` and a
non-empty enum string are always truthy; `title` is falsy only when empty,
in which case `or ''` yields the same empty string; `total_minutes` is
falsy at `0`, which Python silently replaces with `''`.  The final arm is
unreachable under the `valid_sort_fields` guard. -/
def pyKey (sort_by : String) (t : Task) : PyVal :=
  if sort_by = "created_at" then .num t.created_at
  else if sort_by = "updated_at" then .num t.updated_at
  else if sort_by = "title" then .str t.title
  else if sort_by = "status" then .str (statusValue t.status)
  else if sort_by = "total_minutes" then
    (if t.total_minutes = 0 then .str "" else .num t.total_minutes)
  else .str ""

/-- All sort keys of the listed tasks are of one kind, so Python's sort
completes without a `TypeError`. -/
def keysComparable (sort_by : String) (tasks : List Task) : Bool :=
  tasks.all (fun t => (pyKey sort_by t).isStr) ||
    tasks.all (fun t => !(pyKey sort_by t).isStr)

/-- The sorting step of `list_user_tasks`: a field outside
`valid_sort_fields` means no sort at all; otherwise a stable Python
`list.sort(key=..., reverse=...)`, ascending exactly when
`sort_order.lower() == "asc"`.  When the keys mix strings and numbers the
comparison raises `TypeError`, the bare `except` swallows it and the
handler continues with the list (whose order is then CPython-internal); no
theorem below touches that region. -/
def sortTasks (sort_by sort_order : String) (tasks : List Task) : List Task :=
  if sort_by ∈ validSortFields then
    if keysComparable sort_by tasks then
      if strLower sort_order = "asc" then
        List.insertionSort (fun a b => PyVal.le (pyKey sort_by a) (pyKey sort_by b) = true) tasks
      else
        List.insertionSort (fun a b => PyVal.le (pyKey sort_by b) (pyKey sort_by a) = true) tasks
    else tasks
  else tasks

/-- Handler of `GET /tasks/` (`list_user_tasks`): select by project/owner
filters (with the project-access gate), paginate, filter by status, then
sort; the response's `items` list is returned. -/
def list_user_tasks (db : DB) (current_user : User)
    (project_id owner_id : Option UUID) (status : Option TaskStatus)
    (skip limit : Nat) (sort_by sort_order : String) :
    Except HttpError (List Task) :=
  match project_id with
  | some pid =>
    if !is_project_member db pid current_user.id && !current_user.is_admin then
      .error .forbidden
    else
      let sel :=
        match owner_id with
        | some oid =>
          db.tasks.filter (fun (t : Task) => t.project_id == some pid && t.owner_id == some oid)
        | none => db.tasks.filter (fun (t : Task) => t.project_id == some pid)
      let page := (sel.drop skip).take limit
      let page :=
        match status with
        | some st => page.filter (fun t => t.status == st)
        | none => page
      .ok (sortTasks sort_by sort_order page)
  | none =>
    let sel :=
      match owner_id with
      | some oid => db.tasks.filter (fun (t : Task) => t.owner_id == some oid)
      | none => db.tasks.filter (fun (t : Task) => t.user_id == current_user.id)
    let page := (sel.drop skip).take limit
    let page :=
      match status with
      | some st => page.filter (fun t => t.status == st)
      | none => page
    .ok (sortTasks sort_by sort_order page)

/-! ### Project creation and membership endpoints
(`app/crud/project.py`, `app/routers/project_members.py`) -/

/-- Body of a `POST /projects/` request. -/
structure ProjectCreate where
  name : String
  description : Option String
deriving DecidableEq, Repr

/-- Body of a `POST /projects/{project_id}/members` request; the role
defaults to MEMBER but any `ProjectRole` value is accepted by the schema. -/
structure ProjectMemberCreate where
  user_id : UUID
  role : ProjectRole
deriving DecidableEq, Repr

/-- Body of a `PATCH /projects/{project_id}/members/{user_id}` request. -/
structure ProjectMemberUpdate where
  role : Option ProjectRole
deriving DecidableEq, Repr

/-- `create_project` of `app/crud/project.py`: insert the project row, then
automatically insert an OWNER membership for the creator (the two fresh
`uuid4` row ids are passed explicitly). -/
def create_project (db : DB) (project : ProjectCreate) (owner_id : UUID)
    (new_project_id new_member_id : UUID) : DB × Project :=
  let db_project : Project :=
    { id := new_project_id
      name := project.name
      description := project.description
      is_active := true
      owner_id := owner_id }
  let owner_member : ProjectMember :=
    { id := new_member_id
      project_id := new_project_id
      user_id := owner_id
      role := ProjectRole.owner }
  ({ db with
      projects := db.projects ++ [db_project]
      members := db.members ++ [owner_member] }, db_project)

/-- Handler of `POST /projects/{project_id}/members`
(`add_project_member`): 404 for a missing project, 403 unless the caller
can manage members (or is a global admin), 400 for a duplicate membership;
the requested role is stored unchecked. -/
def add_project_member (db : DB) (project_id : UUID) (member_create : ProjectMemberCreate)
    (current_user : User) (new_member_id : UUID) :
    Except HttpError (DB × ProjectMember) :=
  match get_project db project_id with
  | none => .error .notFound
  | some _ =>
    if !can_manage_members db project_id current_user.id && !current_user.is_admin then
      .error .forbidden
    else
      match get_project_member_by_user_and_project db member_create.user_id project_id with
      | some _ => .error .badRequest
      | none =>
        let member : ProjectMember :=
          { id := new_member_id
            project_id := project_id
            user_id := member_create.user_id
            role := member_create.role }
        .ok ({ db with members := db.members ++ [member] }, member)

/-- `delete_project_member` of `app/crud/project_member.py`: remove the
membership row with the given primary key. -/
def delete_project_member (db : DB) (member_id : UUID) : DB :=
  { db with members := db.members.filter (fun m => !(m.id == member_id)) }

/-- Handler of `DELETE /projects/{project_id}/members/{user_id}`
(`remove_project_member`): 404 for a missing project or membership; a
member may remove themselves unless their role resolves to owner; removing
someone else needs member-management rights (or global admin); an
OWNER-role membership row is never removable (403). -/
def remove_project_member (db : DB) (project_id user_id : UUID)
    (current_user : User) : Except HttpError DB :=
  match get_project db project_id with
  | none => .error .notFound
  | some _ =>
    let gate : Except HttpError Unit :=
      if current_user.id == user_id then
        if get_user_role db project_id user_id == some ProjectRole.owner then
          .error .forbidden
        else .ok ()
      else
        if !can_manage_members db project_id current_user.id && !current_user.is_admin then
          .error .forbidden
        else .ok ()
    match gate with
    | .error e => .error e
    | .ok _ =>
      match get_project_member_by_user_and_project db user_id project_id with
      | none => .error .notFound
      | some member =>
        if member.role == ProjectRole.owner then .error .forbidden
        else .ok (delete_project_member db member.id)

/-- Handler of `PATCH /projects/{project_id}/members/{user_id}`
(`update_project_member_role`): 404 for a missing project or membership;
only the project owner or a global admin may update roles; changing the
OWNER member's role and assigning the OWNER role are both rejected (403);
an unset role leaves the row unchanged (`exclude_unset`). -/
def update_project_member_role (db : DB) (project_id user_id : UUID)
    (member_update : ProjectMemberUpdate) (current_user : User) :
    Except HttpError (DB × ProjectMember) :=
  match get_project db project_id with
  | none => .error .notFound
  | some _ =>
    if !is_project_owner db project_id current_user.id && !current_user.is_admin then
      .error .forbidden
    else
      match get_project_member_by_user_and_project db user_id project_id with
      | none => .error .notFound
      | some member =>
        if member.role == ProjectRole.owner then .error .forbidden
        else if member_update.role == some ProjectRole.owner then .error .forbidden
        else
          let member' :=
            match member_update.role with
            | some r => { member with role := r }
            | none => member
          .ok (db.replaceMember member.id member', member')

/-- The membership rows recording ownership of project `pid`. -/
def ownerRows (db : DB) (pid : UUID) : List ProjectMember :=
  db.members.filter (fun m => m.project_id == pid && m.role == ProjectRole.owner)

/-- The OWNER-uniqueness invariant: for every project row, exactly one
membership row has role OWNER, and its `user_id` equals the project's
`owner_id`. -/
def ownerInvariant (db : DB) : Bool :=
  db.projects.all (fun p =>
    match ownerRows db p.id with
    | [m] => m.user_id == p.owner_id
    | _ => false)

/-! ### AI task-description endpoint (`app/routers/ai.py`,
`app/ai/task_description.py`) -/

/-- Body of a `POST /ai/suggest/task-description` request. -/
structure TaskDescriptionRequest where
  title : String
  context : Option String
  project_type : Option String
  complexity : Option String
deriving DecidableEq, Repr

/-- The `TaskDescriptionResponse` schema (`estimated_hours`, a JSON number,
is carried as a rational). -/
structure TaskDescriptionResponse where
  title : String
  description : String
  acceptance_criteria : List String
  technical_notes : List String
  estimated_hours : Option Rat
  tags : List String
  ai_generated : Bool
deriving DecidableEq, Repr

/-- The fields read out of the AI completion's parsed JSON object. -/
structure ParsedAIContent where
  description : String
  acceptance_criteria : List String
  technical_notes : List String
  estimated_hours : Option Rat
  tags : List String
deriving DecidableEq, Repr

/-- The external completion call chain (client construction, chat
completion, JSON parse): every failure mode inside
`generate_task_description` is re-raised as `AIError` with a message, so
the backend is a function into `Except` over an error string. -/
abbrev AIBackend := TaskDescriptionRequest → Except String ParsedAIContent

/-- `generate_task_description` of `app/ai/task_description.py`: on backend
success, shape the response with `ai_generated=True`; every failure is an
`AIError`. -/
def generate_task_description (backend : AIBackend)
    (request : TaskDescriptionRequest) : Except String TaskDescriptionResponse :=
  match backend request with
  | .error e => .error e
  | .ok parsed =>
    .ok { title := request.title
          description := parsed.description
          acceptance_criteria := parsed.acceptance_criteria
          technical_notes := parsed.technical_notes
          estimated_hours := parsed.estimated_hours
          tags := parsed.tags
          ai_generated := true }

/-- `generate_fallback_description` of `app/ai/task_description.py`: a
deterministic canned response with `ai_generated=False`. -/
def generate_fallback_description (title : String) (context : Option String) :
    TaskDescriptionResponse :=
  let description := "Complete the task: " ++ title
  let description :=
    match context with
    | some c => description ++ "\n\nAdditional context: " ++ c
    | none => description
  { title := title
    description := description
    acceptance_criteria :=
      [ "Task requirements are clearly defined"
      , "Implementation is complete and tested"
      , "Code review is completed"
      , "Documentation is updated" ]
    technical_notes :=
      [ "Review existing codebase for similar implementations"
      , "Follow project coding standards and best practices"
      , "Consider performance and scalability implications" ]
    estimated_hours := some 2
    tags := ["task"]
    ai_generated := false }

/-- Handler of `POST /ai/suggest/task-description`
(`suggest_task_description`): when the AI is unavailable, or the backend
raises `AIError`, answer 200 with the fallback response. -/
def suggest_task_description (ai_available : Bool) (backend : AIBackend)
    (request : TaskDescriptionRequest) : Except HttpError TaskDescriptionResponse :=
  if ai_available then
    match generate_task_description backend request with
    | .ok response => .ok response
    | .error _ => .ok (generate_fallback_description request.title request.context)
  else
    .ok (generate_fallback_description request.title request.context)

/-! ### Concrete fixtures used by witnesses and counterexamples -/

/-- A plain (non-admin) user. -/
def u1 : User := { id := 1, is_admin := false }

/-- A second plain user. -/
def u2 : User := { id := 2, is_admin := false }

/-- A third plain user. -/
def u3 : User := { id := 3, is_admin := false }

/-- A global admin. -/
def uAdmin : User := { id := 9, is_admin := true }

/-- A task created by and assigned to user 1, outside any project. -/
def tA : Task :=
  { id := 1, title := "a", description := none, status := TaskStatus.todo
    total_minutes := 0, user_id := 1, project_id := none, owner_id := some 1
    created_at := 1, updated_at := 1 }

/-- A second task of user 1, created later than `tA`. -/
def tB : Task :=
  { id := 2, title := "b", description := none, status := TaskStatus.todo
    total_minutes := 3, user_id := 1, project_id := none, owner_id := some 1
    created_at := 2, updated_at := 2 }

/-- An empty store. -/
def dbEmpty : DB := { users := [], projects := [], members := [], tasks := [] }

/-- A store holding only `tA`. -/
def dbOneTask : DB := { users := [], projects := [], members := [], tasks := [tA] }

/-- Project 5, owned by user 1. -/
def p5 : Project :=
  { id := 5, name := "X", description := none, is_active := true, owner_id := 1 }

/-- User 3 holds plain MEMBER role in project 5. -/
def m53 : ProjectMember := { id := 20, project_id := 5, user_id := 3, role := ProjectRole.member }

/-- A task in project 5, created by user 1 and assigned to user 2. -/
def tP : Task :=
  { id := 4, title := "p", description := none, status := TaskStatus.todo
    total_minutes := 0, user_id := 1, project_id := some 5, owner_id := some 2
    created_at := 1, updated_at := 1 }

/-- A store with project 5, its MEMBER user 3, and the project task `tP`. -/
def dbProj : DB :=
  { users := [u1, u2, u3], projects := [p5], members := [m53], tasks := [tP] }

/-- A task created by and assigned to user 2, outside any project (used to
probe the admin flag). -/
def t4 : Task :=
  { id := 1, title := "t", description := none, status := TaskStatus.todo
    total_minutes := 0, user_id := 2, project_id := none, owner_id := some 2
    created_at := 1, updated_at := 1 }

/-- A store where user 7 is a global admin, with `t4` the only task. -/
def db4a : DB :=
  { users := [{ id := 7, is_admin := true }], projects := [], members := [], tasks := [t4] }

/-- The same store with user 7's global-admin flag cleared — the only
difference from `db4a`. -/
def db4b : DB :=
  { users := [{ id := 7, is_admin := false }], projects := [], members := [], tasks := [t4] }

/-- A store whose two tasks `tA`, `tB` belong to user 1 and sit in
ascending `created_at` order. -/
def db5 : DB := { users := [u1], projects := [], members := [], tasks := [tA, tB] }

/-- A task of user 1 with 5 accumulated minutes. -/
def t6 : Task :=
  { id := 1, title := "w", description := none, status := TaskStatus.todo
    total_minutes := 5, user_id := 1, project_id := none, owner_id := some 1
    created_at := 1, updated_at := 1 }

/-- A store holding only `t6`. -/
def db6 : DB := { users := [u1], projects := [], members := [], tasks := [t6] }

/-- `db6` after 3 minutes have been added to `t6`. -/
def db6a : DB :=
  { users := [u1], projects := [], members := [],
    tasks := [{ t6 with total_minutes := 8 }] }

/-- A store with just user 1, before any project exists. -/
def db70 : DB := { users := [u1], projects := [], members := [], tasks := [] }

/-- The store reached from `db70` by user 1 creating project "X"
(fresh row ids 100 and 200). -/
def db71 : DB :=
  { users := [u1]
    projects := [{ id := 100, name := "X", description := none, is_active := true, owner_id := 1 }]
    members := [{ id := 200, project_id := 100, user_id := 1, role := ProjectRole.owner }]
    tasks := [] }

/-- The store reached from `db71` by the owner adding user 2 with role
OWNER through `POST /projects/100/members` (fresh row id 201). -/
def db72 : DB :=
  { users := [u1]
    projects := [{ id := 100, name := "X", description := none, is_active := true, owner_id := 1 }]
    members := [{ id := 200, project_id := 100, user_id := 1, role := ProjectRole.owner },
                { id := 201, project_id := 100, user_id := 2, role := ProjectRole.owner }]
    tasks := [] }

/-- The membership row created by that request. -/
def m72 : ProjectMember := { id := 201, project_id := 100, user_id := 2, role := ProjectRole.owner }

/-- An always-failing AI backend (every failure inside
`generate_task_description` surfaces as `AIError`). -/
def backend9 : AIBackend :=
  fun _ => .error "AI task description generation failed: boom"

/-- A concrete AI request. -/
def req9 : TaskDescriptionRequest :=
  { title := "Build login page", context := some "OAuth flow"
    project_type := some "web_application", complexity := some "medium" }

/-- A PATCH body that only moves the status to DONE. -/
def tu10 : TaskUpdate :=
  { title := none, description := none, status := some TaskStatus.done
    total_minutes := none, owner_id := none }

/-- `dbOneTask` after `tu10` has been applied to `tA`. -/
def db10' : DB :=
  { users := [], projects := [], members := [],
    tasks := [{ tA with status := TaskStatus.done }] }

/-! ### Shared helper lemmas -/

/-- A project-ownership lookup succeeds exactly when a matching row exists. -/
theorem is_project_owner_iff (db : DB) (pid uid : UUID) :
    is_project_owner db pid uid = true ↔
      ∃ p ∈ db.projects, p.id = pid ∧ p.owner_id = uid := by
  simp [is_project_owner, List.find?_isSome]

/-- A membership-row lookup succeeds exactly when a matching row exists. -/
theorem member_row_exists_iff (db : DB) (pid uid : UUID) :
    (db.members.find? (fun m => m.project_id == pid && m.user_id == uid)).isSome = true ↔
      ∃ m ∈ db.members, m.project_id = pid ∧ m.user_id = uid := by
  simp [List.find?_isSome]

/-- The membership form of `is_project_admin`. -/
theorem is_project_admin_iff (db : DB) (pid uid : UUID) :
    is_project_admin db pid uid = true ↔
      (∃ p ∈ db.projects, p.id = pid ∧ p.owner_id = uid) ∨
      (∃ m ∈ db.members, m.project_id = pid ∧ m.user_id = uid ∧
        m.role = ProjectRole.admin) := by
  unfold is_project_admin
  by_cases hp : (db.projects.find? (fun p => p.id == pid && p.owner_id == uid)).isSome = true
  · rw [if_pos hp]
    simp only [List.find?_isSome] at hp
    simp only [true_iff]
    left
    simpa using hp
  · rw [if_neg hp]
    simp only [List.find?_isSome] at hp ⊢
    constructor
    · intro h
      right
      simpa [and_assoc] using h
    · rintro (h | h)
      · exact absurd (by simpa using h) hp
      · simpa [and_assoc] using h

/-- A resolver consulted on a missing task answers `false` (`can_view_task`). -/
theorem can_view_task_none (db : DB) (tid uid : UUID) (h : get_task db tid = none) :
    can_view_task db tid uid = false := by
  unfold can_view_task
  rw [h]

/-- A resolver consulted on a missing task answers `false` (`can_edit_task`). -/
theorem can_edit_task_none (db : DB) (tid uid : UUID) (h : get_task db tid = none) :
    can_edit_task db tid uid = false := by
  unfold can_edit_task
  rw [h]

/-- Replacing the task row with id `tid` rewrites exactly the positions the
id predicate matches. -/
theorem find?_id_map_replace (l : List Task) (tid : UUID) (t' : Task)
    (h : t'.id = tid) :
    (l.map (fun x => if x.id == tid then t' else x)).find? (fun x => x.id == tid) =
      (l.find? (fun x => x.id == tid)).map (fun _ => t') := by
  induction l with
  | nil => rfl
  | cons x l ih =>
    by_cases hx : x.id = tid
    · have hfx : (if (x.id == tid) = true then t' else x) = t' := by simp [hx]
      rw [List.map_cons, hfx, List.find?_cons_of_pos _ (by simp [h]),
        List.find?_cons_of_pos _ (by simp [hx])]
      rfl
    · have hfx : (if (x.id == tid) = true then t' else x) = x := by simp [hx]
      rw [List.map_cons, hfx, List.find?_cons_of_neg _ (by simp [hx]),
        List.find?_cons_of_neg _ (by simp [hx]), ih]

/-- Fetching after `replaceTask` returns the replacement row. -/
theorem get_task_replaceTask (db : DB) (tid : UUID) (t t' : Task)
    (h : get_task db tid = some t) (h' : t'.id = tid) :
    get_task (db.replaceTask tid t') tid = some t' := by
  unfold get_task DB.replaceTask at *
  rw [find?_id_map_replace db.tasks tid t' h', h]
  rfl

/-- The row found by `get_task` carries the looked-up id. -/
theorem get_task_id (db : DB) (tid : UUID) (t : Task)
    (h : get_task db tid = some t) : t.id = tid := by
  have := List.find?_some h
  simpa using this

/-- `can_edit_task` is unchanged by replacing the task row with one that
agrees on the creator, assignee and project columns (the only task columns
the resolver consults). -/
theorem can_edit_task_replace (db : DB) (tid uid : UUID) (t t' : Task)
    (h : get_task db tid = some t) (hid : t'.id = tid)
    (hu : t'.user_id = t.user_id) (ho : t'.owner_id = t.owner_id)
    (hp : t'.project_id = t.project_id) :
    can_edit_task (db.replaceTask tid t') tid uid = can_edit_task db tid uid := by
  unfold can_edit_task
  rw [get_task_replaceTask db tid t t' h hid, h]
  dsimp only
  rw [hu, ho, hp]
  rfl

/-- Totality of the embedded Python key comparison. -/
theorem pyLe_total (v w : PyVal) : PyVal.le v w = true ∨ PyVal.le w v = true := by
  cases v <;> cases w <;> simp [PyVal.le] <;> exact le_total ..

/-- Transitivity of the embedded Python key comparison. -/
theorem pyLe_trans (v w x : PyVal) (h1 : PyVal.le v w = true)
    (h2 : PyVal.le w x = true) : PyVal.le v x = true := by
  cases v <;> cases w <;> cases x <;> simp_all [PyVal.le] <;> exact le_trans h1 h2

/-! ### Claim C1 -/

/-- C1 (counterexample): the claim says a request for a nonexistent task id
yields NotFound regardless of the caller's permissions.  In `GET
/tasks/{task_id}` the permission check runs first and `can_view_task`
answers `false` for a missing task, so a non-admin caller requesting the
missing task 42 receives Forbidden, not NotFound. -/
theorem get_task_missing_yields_forbidden_cex :
    get_task dbEmpty 42 = none ∧
      get_task_endpoint dbEmpty 42 u2 = Except.error HttpError.forbidden := by
  constructor
  · rfl
  · rfl

/-- C1 (amended): in the task handlers the permission predicate (ORed with
the caller's global-admin flag) is evaluated before existence, so a
nonexistent task id yields Forbidden for a non-admin caller and NotFound
only for a global admin, while an existing task the caller cannot view
yields Forbidden; only the `/assign` handler fetches the task first and
answers NotFound for everyone. -/
theorem task_endpoints_permission_before_existence :
    (∀ db tid (u : User), get_task db tid = none → u.is_admin = false →
      get_task_endpoint db tid u = Except.error HttpError.forbidden) ∧
    (∀ db tid (u : User), get_task db tid = none → u.is_admin = true →
      get_task_endpoint db tid u = Except.error HttpError.notFound) ∧
    (∀ db tid (u : User) t, get_task db tid = some t →
      can_view_task db tid u.id = false → u.is_admin = false →
      get_task_endpoint db tid u = Except.error HttpError.forbidden) ∧
    (∀ db tid oid (u : User), get_task db tid = none →
      assign_task db tid oid u = Except.error HttpError.notFound) := by
  refine ⟨?_, ?_, ?_, ?_⟩
  · intro db tid u hg ha
    unfold get_task_endpoint
    rw [can_view_task_none db tid u.id hg, ha]
    rfl
  · intro db tid u hg ha
    unfold get_task_endpoint
    rw [can_view_task_none db tid u.id hg, ha, hg]
    rfl
  · intro db tid u t hg hv ha
    unfold get_task_endpoint
    rw [hv, ha]
    rfl
  · intro db tid oid u hg
    unfold assign_task
    rw [hg]

/-- C1 (witness for the amended theorem at concrete inputs). -/
theorem task_endpoints_permission_before_existence_witness :
    (get_task dbEmpty 42 = none ∧ u2.is_admin = false ∧
      get_task_endpoint dbEmpty 42 u2 = Except.error HttpError.forbidden) ∧
    (uAdmin.is_admin = true ∧
      get_task_endpoint dbEmpty 42 uAdmin = Except.error HttpError.notFound) ∧
    (get_task dbOneTask 1 = some tA ∧ can_view_task dbOneTask 1 u2.id = false ∧
      get_task_endpoint dbOneTask 1 u2 = Except.error HttpError.forbidden) ∧
    assign_task dbEmpty 42 none u2 = Except.error HttpError.notFound :=
  ⟨⟨by decide, by decide,
      task_endpoints_permission_before_existence.1 dbEmpty 42 u2 (by decide) (by decide)⟩,
   ⟨by decide,
      task_endpoints_permission_before_existence.2.1 dbEmpty 42 uAdmin (by decide) (by decide)⟩,
   ⟨by decide, by decide,
      task_endpoints_permission_before_existence.2.2.1 dbOneTask 1 u2 tA (by decide) (by decide)
        (by decide)⟩,
   task_endpoints_permission_before_existence.2.2.2 dbEmpty 42 none u2 (by decide)⟩

/-! ### Claim C4 -/

/-- C4 (counterexample): the claim says no resolver consults the caller's
global-admin flag.  `can_assign_task` does: in two stores identical except
for user 7's `is_admin` flag, it answers `true` with the flag set and
`false` with it cleared. -/
theorem can_assign_task_admin_flag_cex :
    can_assign_task db4a 1 7 = true ∧ can_assign_task db4b 1 7 = false := by
  constructor
  · rfl
  · rfl

/-- C4 (amended): `can_view_task`, `can_edit_task`, `is_project_owner`,
`is_project_admin` and `is_project_member` never consult user records (they
are invariant under arbitrary replacement of the `users` table), and the
HTTP call sites apply the global-admin override as a logical OR with their
answers; `can_assign_task` and `can_unassign_task`, however, embed the
system-admin override internally by looking the caller up in the `users`
table. -/
theorem resolver_admin_flag_amended :
    (∀ db us tid uid, can_view_task { db with users := us } tid uid = can_view_task db tid uid) ∧
    (∀ db us tid uid, can_edit_task { db with users := us } tid uid = can_edit_task db tid uid) ∧
    (∀ db us pid uid,
      is_project_owner { db with users := us } pid uid = is_project_owner db pid uid) ∧
    (∀ db us pid uid,
      is_project_admin { db with users := us } pid uid = is_project_admin db pid uid) ∧
    (∀ db us pid uid,
      is_project_member { db with users := us } pid uid = is_project_member db pid uid) ∧
    (∀ db tid (u : User),
      get_task_endpoint db tid { u with is_admin := true } ≠ Except.error HttpError.forbidden) := by
  refine ⟨fun db us tid uid => rfl, fun db us tid uid => rfl, fun db us pid uid => rfl,
    fun db us pid uid => rfl, fun db us pid uid => rfl, ?_⟩
  intro db tid u
  unfold get_task_endpoint
  cases get_task db tid <;> simp

/-- C4 (witness for the amended theorem at concrete inputs). -/
theorem resolver_admin_flag_amended_witness :
    can_view_task { dbProj with users := [] } 4 3 = can_view_task dbProj 4 3 ∧
    can_edit_task { dbProj with users := [] } 4 3 = can_edit_task dbProj 4 3 ∧
    get_task_endpoint dbEmpty 42 { u1 with is_admin := true } ≠
      Except.error HttpError.forbidden :=
  ⟨resolver_admin_flag_amended.1 dbProj [] 4 3,
   resolver_admin_flag_amended.2.1 dbProj [] 4 3,
   resolver_admin_flag_amended.2.2.2.2.2 dbEmpty 42 u1⟩

/-! ### Claim C7 -/

/-- C7 (code bug): `POST /projects/{id}/members` stores the requested role
unchecked, so the OWNER-uniqueness invariant is violated in a reachable
state.  Concretely: user 1 creates project 100 (invariant holds, one OWNER
row for the creator), then the owner adds user 2 with role OWNER and the
endpoint accepts, leaving two OWNER rows with `user_id` 2 ≠
`Project.owner_id` 1 — while the member-update endpoint refuses both to
demote the owner and to hand out the OWNER role, and the member-remove
endpoint refuses to remove the owner. -/
theorem owner_invariant_add_member_bug :
    (create_project db70 { name := "X", description := none } 1 100 200).1 = db71 ∧
    ownerInvariant db71 = true ∧
    add_project_member db71 100 { user_id := 2, role := ProjectRole.owner } u1 201 =
      Except.ok (db72, m72) ∧
    ownerInvariant db72 = false ∧
    update_project_member_role db71 100 1 { role := some ProjectRole.member } u1 =
      Except.error HttpError.forbidden ∧
    update_project_member_role dbProj 5 3 { role := some ProjectRole.owner } u1 =
      Except.error HttpError.forbidden ∧
    remove_project_member db71 100 1 u1 = Except.error HttpError.forbidden := by
  refine ⟨?_, ?_, ?_, ?_, ?_, ?_, ?_⟩ <;> rfl

/-! ### Claim C8 -/

/-- C8: `create_task` defaults the assignee to the creator when `owner_id`
is omitted (`owner_id=owner_id or user_id`, and a UUID is never falsy), and
stores the supplied assignee when one is given. -/
theorem create_task_owner_default :
    (∀ db tc uid pid ntid now,
      (create_task db tc uid pid none ntid now).2.owner_id = some uid) ∧
    (∀ db tc uid pid v ntid now,
      (create_task db tc uid pid (some v) ntid now).2.owner_id = some v) :=
  ⟨fun _ _ _ _ _ _ => rfl, fun _ _ _ _ _ _ _ => rfl⟩

/-! ### Claim C9 -/

/-- C9: every AI-backend failure (an `AIError` inside
`generate_task_description`) and every unavailable-AI request is answered
with success status carrying the deterministic fallback response, whose
`ai_generated` flag is `False`; the handler never surfaces an AI failure as
an error. -/
theorem ai_failure_fallback :
    (∀ (backend : AIBackend) request e, backend request = Except.error e →
      suggest_task_description true backend request =
        Except.ok (generate_fallback_description request.title request.context)) ∧
    (∀ (backend : AIBackend) request,
      suggest_task_description false backend request =
        Except.ok (generate_fallback_description request.title request.context)) ∧
    (∀ title context, (generate_fallback_description title context).ai_generated = false) ∧
    (∀ avail (backend : AIBackend) request,
      ∃ r, suggest_task_description avail backend request = Except.ok r) := by
  refine ⟨?_, fun backend request => rfl, fun title context => rfl, ?_⟩
  · intro backend request e h
    unfold suggest_task_description generate_task_description
    rw [h]
    rfl
  · intro avail backend request
    unfold suggest_task_description generate_task_description
    cases avail with
    | false => exact ⟨_, rfl⟩
    | true =>
      cases backend request with
      | error e => exact ⟨_, rfl⟩
      | ok parsed => exact ⟨_, rfl⟩

/-- C9 (witness at a concrete failing backend). -/
theorem ai_failure_fallback_witness :
    backend9 req9 = Except.error "AI task description generation failed: boom" ∧
    suggest_task_description true backend9 req9 =
      Except.ok (generate_fallback_description req9.title req9.context) :=
  ⟨rfl, ai_failure_fallback.1 backend9 req9
    "AI task description generation failed: boom" rfl⟩

/-! ### Claim C2 -/

/-- C2: `can_edit_task` holds exactly when the user is the task's creator,
its assignee, or the task's project is set and the user is that project's
owner or an ADMIN member of it; in particular a user holding only the
MEMBER role in the task's project, who is neither creator nor assignee,
cannot edit it. -/
theorem can_edit_task_spec_equiv :
    (∀ db tid uid t, get_task db tid = some t →
      (can_edit_task db tid uid = true ↔ spec_can_edit_task db t uid)) ∧
    (∀ db tid uid pid t, get_task db tid = some t → t.project_id = some pid →
      t.user_id ≠ uid → t.owner_id ≠ some uid →
      (∀ p ∈ db.projects, p.id = pid → p.owner_id ≠ uid) →
      (∀ m ∈ db.members, m.project_id = pid → m.user_id = uid →
        m.role = ProjectRole.member) →
      can_edit_task db tid uid = false) := by
  constructor
  · intro db tid uid t h
    unfold can_edit_task spec_can_edit_task
    rw [h]
    dsimp only
    by_cases h1 : t.user_id = uid
    · simp [h1]
    · by_cases h2 : t.owner_id = some uid
      · simp [h1, h2]
      · rw [if_neg (by simpa using h1), if_neg (by simpa using h2)]
        cases hp : t.project_id with
        | none => simp [h1, h2]
        | some pid =>
          simp only [h1, h2, hp, false_or, Option.some.injEq, false_iff, true_iff]
          by_cases ho : is_project_owner db pid uid = true
          · rw [if_pos ho]
            simp only [true_iff]
            exact ⟨pid, rfl, Or.inl ((is_project_owner_iff db pid uid).mp ho)⟩
          · rw [if_neg ho]
            rw [is_project_admin_iff]
            constructor
            · intro hc
              exact ⟨pid, rfl, hc⟩
            · rintro ⟨pid', hpid', hc⟩
              cases hpid'
              exact hc
  · intro db tid uid pid t h hp h1 h2 hown hmem
    unfold can_edit_task
    rw [h]
    dsimp only
    rw [if_neg (by simpa using h1), if_neg (by simpa using h2), hp]
    dsimp only
    have ho : ¬ is_project_owner db pid uid = true := by
      intro hx
      obtain ⟨p, hpmem, hpid, hpo⟩ := (is_project_owner_iff db pid uid).mp hx
      exact hown p hpmem hpid hpo
    rw [if_neg ho]
    cases hb : is_project_admin db pid uid with
    | false => rfl
    | true =>
      rcases (is_project_admin_iff db pid uid).mp hb with
        ⟨p, hpmem, hpid, hpo⟩ | ⟨m, hmm, hmp, hmu, hr⟩
      · exact absurd hpo (hown p hpmem hpid)
      · have hm := hmem m hmm hmp hmu
        rw [hr] at hm
        cases hm

/-- C2 (witness: in `dbProj`, user 3 holds only MEMBER role in project 5
and is neither creator nor assignee of task 4, so the iff and the
member-only corollary instantiate concretely). -/
theorem can_edit_task_spec_equiv_witness :
    (get_task dbProj 4 = some tP ∧
      (can_edit_task dbProj 4 3 = true ↔ spec_can_edit_task dbProj tP 3)) ∧
    (tP.project_id = some 5 ∧ tP.user_id ≠ 3 ∧ tP.owner_id ≠ some 3 ∧
      can_edit_task dbProj 4 3 = false) :=
  ⟨⟨by decide, can_edit_task_spec_equiv.1 dbProj 4 3 tP (by decide)⟩,
   ⟨by decide, by decide, by decide,
     can_edit_task_spec_equiv.2 dbProj 4 3 5 tP (by decide) (by decide) (by decide)
       (by decide) (by decide) (by decide)⟩⟩

/-! ### Claim C3 -/

/-- C3: `can_view_task` holds exactly when the user is the task's creator,
its assignee, or the task's project is set and the user is a member of it
(any role, the project owner included); in particular creator or assignee
status alone suffices, independent of project membership. -/
theorem can_view_task_spec_equiv :
    (∀ db tid uid t, get_task db tid = some t →
      (can_view_task db tid uid = true ↔ spec_can_view_task db t uid)) ∧
    (∀ db tid uid t, get_task db tid = some t →
      (t.user_id = uid ∨ t.owner_id = some uid) →
      can_view_task db tid uid = true) := by
  constructor
  · intro db tid uid t h
    unfold can_view_task spec_can_view_task
    rw [h]
    dsimp only
    by_cases h1 : t.user_id = uid
    · simp [h1]
    · by_cases h2 : t.owner_id = some uid
      · simp [h1, h2]
      · rw [if_neg (by simpa using h1), if_neg (by simpa using h2)]
        cases hp : t.project_id with
        | none => simp [h1, h2]
        | some pid =>
          simp only [h1, h2, hp, false_or, Option.some.injEq, false_iff, true_iff]
          by_cases ho : is_project_owner db pid uid = true
          · rw [if_pos ho]
            simp only [true_iff]
            exact ⟨pid, rfl, Or.inl ((is_project_owner_iff db pid uid).mp ho)⟩
          · rw [if_neg ho]
            rw [member_row_exists_iff]
            constructor
            · intro hc
              exact ⟨pid, rfl, Or.inr hc⟩
            · rintro ⟨pid', hpid', hc⟩
              cases hpid'
              rcases hc with hc | hc
              · exact absurd ((is_project_owner_iff db pid uid).mpr hc) ho
              · exact hc
  · intro db tid uid t h hco
    unfold can_view_task
    rw [h]
    dsimp only
    rcases hco with h1 | h2
    · rw [if_pos (by simpa using h1)]
    · by_cases h1 : t.user_id = uid
      · rw [if_pos (by simpa using h1)]
      · rw [if_neg (by simpa using h1), if_pos (by simpa using h2)]

/-- C3 (witness: in `dbProj`, user 2 is the assignee of task 4 without any
membership row, and the iff instantiates for user 3 as well). -/
theorem can_view_task_spec_equiv_witness :
    (get_task dbProj 4 = some tP ∧
      (can_view_task dbProj 4 3 = true ↔ spec_can_view_task dbProj tP 3)) ∧
    (tP.owner_id = some 2 ∧ can_view_task dbProj 4 2 = true) :=
  ⟨⟨by decide, can_view_task_spec_equiv.1 dbProj 4 3 tP (by decide)⟩,
   ⟨by decide, can_view_task_spec_equiv.2 dbProj 4 2 tP (by decide) (Or.inr (by decide))⟩⟩

/-! ### Claim C5 -/

/-- C5 (counterexample): the claim says a sort field outside the allow-list
falls back to `created_at` descending.  Listing user 1's tasks with
`sort_by="priority"` returns the selection in store order `[tA, tB]`
(ascending `created_at`), which is not sorted by `created_at` descending:
the handler simply skips sorting. -/
theorem sort_fallback_cex :
    list_user_tasks db5 u1 none none none 0 100 "priority" "desc" = Except.ok [tA, tB] ∧
    ¬ List.Sorted (fun a b : Task => b.created_at ≤ a.created_at) [tA, tB] := by
  constructor
  · rfl
  · decide

/-- C5 (amended): a sort field outside the allow-list leaves the list
exactly as selected (no re-sort happens); a field inside the allow-list
with key comparison well-typed yields a permutation of the selection
sorted by that field's Python key, ascending exactly when
`sort_order.lower() == "asc"` and descending otherwise. -/
theorem sort_allowlist_amended :
    (∀ sb so ts, sb ∉ validSortFields → sortTasks sb so ts = ts) ∧
    (∀ sb so ts, sb ∈ validSortFields → keysComparable sb ts = true →
      (sortTasks sb so ts).Perm ts ∧
      (strLower so = "asc" →
        (sortTasks sb so ts).Sorted
          (fun a b => PyVal.le (pyKey sb a) (pyKey sb b) = true)) ∧
      (strLower so ≠ "asc" →
        (sortTasks sb so ts).Sorted
          (fun a b => PyVal.le (pyKey sb b) (pyKey sb a) = true))) := by
  constructor
  · intro sb so ts h
    unfold sortTasks
    rw [if_neg h]
  · intro sb so ts hmem hcomp
    unfold sortTasks
    rw [if_pos hmem, if_pos hcomp]
    by_cases hso : strLower so = "asc"
    · rw [if_pos hso]
      haveI : IsTotal Task (fun a b => PyVal.le (pyKey sb a) (pyKey sb b) = true) :=
        ⟨fun a b => pyLe_total _ _⟩
      haveI : IsTrans Task (fun a b => PyVal.le (pyKey sb a) (pyKey sb b) = true) :=
        ⟨fun a b c => pyLe_trans _ _ _⟩
      exact ⟨List.perm_insertionSort _ _, fun _ => List.sorted_insertionSort _ _,
        fun hne => absurd hso hne⟩
    · rw [if_neg hso]
      haveI : IsTotal Task (fun a b => PyVal.le (pyKey sb b) (pyKey sb a) = true) :=
        ⟨fun a b => (pyLe_total _ _).symm⟩
      haveI : IsTrans Task (fun a b => PyVal.le (pyKey sb b) (pyKey sb a) = true) :=
        ⟨fun a b c h1 h2 => pyLe_trans _ _ _ h2 h1⟩
      exact ⟨List.perm_insertionSort _ _, fun hasc => absurd hasc hso,
        fun _ => List.sorted_insertionSort _ _⟩

/-- C5 (witness for the amended theorem at concrete inputs). -/
theorem sort_allowlist_amended_witness :
    ("priority" ∉ validSortFields ∧ sortTasks "priority" "desc" [tA, tB] = [tA, tB]) ∧
    ("created_at" ∈ validSortFields ∧ keysComparable "created_at" [tB, tA] = true ∧
      (sortTasks "created_at" "asc" [tB, tA]).Sorted
        (fun a b => PyVal.le (pyKey "created_at" a) (pyKey "created_at" b) = true)) :=
  ⟨⟨by decide, sort_allowlist_amended.1 "priority" "desc" [tA, tB] (by decide)⟩,
   ⟨by decide, by decide,
     (sort_allowlist_amended.2 "created_at" "asc" [tB, tA] (by decide)
       (by decide)).2.1 (by decide)⟩⟩

/-! ### Claim C6 (helper lemmas first) -/

/-- Normal form of a successful `add_time_to_task` run. -/
theorem add_time_eq_ok (db : DB) (tid : UUID) (m : Int) (u : User) (t : Task)
    (hm : ¬ m < 0)
    (hgate : (!can_edit_task db tid u.id && !u.is_admin) = false)
    (hg : get_task db tid = some t) :
    add_time_to_task db tid m u =
      Except.ok (db.replaceTask tid { t with total_minutes := t.total_minutes + m },
        { t with total_minutes := t.total_minutes + m }) := by
  unfold add_time_to_task
  rw [if_neg hm, if_neg (by simp [hgate]), hg]

/-- Inversion of a successful `add_time_to_task` run. -/
theorem add_time_ok_inv (db : DB) (tid : UUID) (m : Int) (u : User)
    (db' : DB) (t' : Task)
    (h : add_time_to_task db tid m u = Except.ok (db', t')) :
    ¬ m < 0 ∧ (!can_edit_task db tid u.id && !u.is_admin) = false ∧
      ∃ t, get_task db tid = some t ∧
        t' = { t with total_minutes := t.total_minutes + m } ∧
        db' = db.replaceTask tid t' := by
  by_cases hm : m < 0
  · unfold add_time_to_task at h
    rw [if_pos hm] at h
    cases h
  · by_cases hgate : (!can_edit_task db tid u.id && !u.is_admin) = true
    · unfold add_time_to_task at h
      rw [if_neg hm, if_pos hgate] at h
      cases h
    · have hgate' : (!can_edit_task db tid u.id && !u.is_admin) = false := by
        simpa using hgate
      cases hg : get_task db tid with
      | none =>
        unfold add_time_to_task at h
        rw [if_neg hm, if_neg hgate, hg] at h
        cases h
      | some t =>
        rw [add_time_eq_ok db tid m u t hm hgate' hg] at h
        injection h with h1
        simp only [Prod.mk.injEq] at h1
        obtain ⟨hdb, ht⟩ := h1
        subst ht
        subst hdb
        exact ⟨hm, hgate', t, rfl, rfl, rfl⟩

/-- Replacing the same task row twice keeps only the second replacement. -/
theorem replaceTask_replaceTask (db : DB) (tid : UUID) (ta tb : Task)
    (hida : ta.id = tid) :
    (db.replaceTask tid ta).replaceTask tid tb = db.replaceTask tid tb := by
  unfold DB.replaceTask
  dsimp only
  rw [List.map_map]
  congr 1
  exact List.map_congr_left (fun x _ => by
    by_cases hx : x.id = tid <;> simp [Function.comp, hx, hida])

/-- C6: the add-time operation is additive: adding 0 minutes leaves
`total_minutes` unchanged, adding `m1` then `m2` produces exactly the state
and response of a single call adding `m1+m2`, and (`minutes ≥ 0` being
enforced by the request validation) a successful call never decreases
`total_minutes`. -/
theorem add_time_additive :
    (∀ db tid (u : User) db' t' t,
      add_time_to_task db tid 0 u = Except.ok (db', t') →
      get_task db tid = some t → t'.total_minutes = t.total_minutes) ∧
    (∀ db tid (u : User) (m1 m2 : Int) db1 t1, 0 ≤ m1 → 0 ≤ m2 →
      add_time_to_task db tid m1 u = Except.ok (db1, t1) →
      add_time_to_task db1 tid m2 u = add_time_to_task db tid (m1 + m2) u) ∧
    (∀ db tid (u : User) (m : Int) db' t' t,
      add_time_to_task db tid m u = Except.ok (db', t') →
      get_task db tid = some t → t.total_minutes ≤ t'.total_minutes) := by
  refine ⟨?_, ?_, ?_⟩
  · intro db tid u db' t' t h hg
    obtain ⟨-, -, t0, hg0, ht, -⟩ := add_time_ok_inv db tid 0 u db' t' h
    rw [hg0] at hg
    injection hg with hg
    subst hg
    rw [ht]
    simp
  · intro db tid u m1 m2 db1 t1 hm1 hm2 h1
    obtain ⟨hm1', hgate, t, hg, ht1, hdb1⟩ := add_time_ok_inv db tid m1 u db1 t1 h1
    subst ht1
    subst hdb1
    have hid : ({ t with total_minutes := t.total_minutes + m1 } : Task).id = tid := by
      simpa using get_task_id db tid t hg
    have hg1 := get_task_replaceTask db tid t _ hg hid
    have hce := can_edit_task_replace db tid u.id t _ hg hid rfl rfl rfl
    have hgate1 : (!can_edit_task
        (db.replaceTask tid { t with total_minutes := t.total_minutes + m1 }) tid u.id &&
        !u.is_admin) = false := by
      rw [hce]
      exact hgate
    have hm2' : ¬ m2 < 0 := by omega
    have hm12 : ¬ m1 + m2 < 0 := by omega
    rw [add_time_eq_ok _ tid m2 u _ hm2' hgate1 hg1,
      add_time_eq_ok db tid (m1 + m2) u t hm12 hgate hg]
    have ht2 : ({ t with total_minutes := t.total_minutes + m1 + m2 } : Task) =
        { t with total_minutes := t.total_minutes + (m1 + m2) } := by
      rw [Int.add_assoc]
    dsimp only
    rw [ht2, replaceTask_replaceTask db tid _ _ hid]
  · intro db tid u m db' t' t h hg
    obtain ⟨hm, -, t0, hg0, ht, -⟩ := add_time_ok_inv db tid m u db' t' h
    rw [hg0] at hg
    injection hg with hg
    subst hg
    rw [ht]
    simp only
    omega

/-- C6 (witness: on `db6` the creator adds 0, then 3 and 4, then 7 minutes
to task 1). -/
theorem add_time_additive_witness :
    (add_time_to_task db6 1 0 u1 = Except.ok (db6, t6) ∧ get_task db6 1 = some t6 ∧
      t6.total_minutes = t6.total_minutes) ∧
    (0 ≤ (3 : Int) ∧ 0 ≤ (4 : Int) ∧
      add_time_to_task db6 1 3 u1 = Except.ok (db6a, { t6 with total_minutes := 8 }) ∧
      add_time_to_task db6a 1 4 u1 = add_time_to_task db6 1 (3 + 4) u1) ∧
    t6.total_minutes ≤ ({ t6 with total_minutes := 8 } : Task).total_minutes := by
  refine ⟨⟨rfl, rfl, ?_⟩, ⟨by decide, by decide, rfl, ?_⟩, ?_⟩
  · exact add_time_additive.1 db6 1 u1 db6 t6 t6 rfl rfl
  · exact add_time_additive.2.1 db6 1 u1 3 4 db6a { t6 with total_minutes := 8 }
      (by decide) (by decide) rfl
  · exact add_time_additive.2.2 db6 1 u1 3 db6a { t6 with total_minutes := 8 } t6
      rfl rfl

/-! ### Claim C10 (helper lemmas first) -/

/-- The scalar-field block never touches the assignee column. -/
theorem applyScalarUpdates_owner (tu : TaskUpdate) (t : Task) :
    (applyScalarUpdates tu t).owner_id = t.owner_id := by
  unfold applyScalarUpdates
  cases tu.title <;> cases tu.description <;> cases tu.status <;>
    cases tu.total_minutes <;> rfl

/-- The PATCH/PUT body never consults `can_unassign_task`: the instrumented
flag stays `false` on every path. -/
theorem task_update_handler_snd (db : DB) (tid : UUID) (tu : TaskUpdate)
    (u : User) : (task_update_handler db tid tu u).2 = false := by
  unfold task_update_handler
  by_cases hgate : (!can_edit_task db tid u.id && !u.is_admin) = true
  · rw [if_pos hgate]
  · rw [if_neg hgate]
    cases hg : get_task db tid with
    | none => rfl
    | some t =>
      cases ho : tu.owner_id with
      | none => simp [ho]
      | some v =>
        by_cases hca : can_assign_task db tid u.id = true <;> simp [ho, hca]

/-- On a successful PATCH/PUT, the stored assignee is the request's
`owner_id` when that field is set (necessarily to a non-null id, given the
dead inner branch) and the old assignee otherwise. -/
theorem task_update_handler_owner (db : DB) (tid : UUID) (tu : TaskUpdate)
    (u : User) (t : Task) (db' : DB) (t' : Task)
    (hg : get_task db tid = some t)
    (h : (task_update_handler db tid tu u).1 = Except.ok (db', t')) :
    t'.owner_id = if tu.owner_id.isSome then tu.owner_id else t.owner_id := by
  unfold task_update_handler at h
  by_cases hgate : (!can_edit_task db tid u.id && !u.is_admin) = true
  · rw [if_pos hgate] at h
    cases h
  · rw [if_neg hgate, hg] at h
    cases ho : tu.owner_id with
    | none =>
      rw [ho] at h
      simp only [Option.isSome_none, Bool.false_eq_true, if_false] at h ⊢
      injection h with h1
      simp only [Prod.mk.injEq] at h1
      rw [← h1.2, applyScalarUpdates_owner]
    | some v =>
      rw [ho] at h
      simp only [Option.isSome_some, if_true] at h ⊢
      by_cases hca : can_assign_task db tid u.id = true
      · simp only [hca, Bool.not_true, Bool.false_eq_true, if_false] at h
        injection h with h1
        simp only [Prod.mk.injEq] at h1
        rw [← h1.2, applyScalarUpdates_owner]
      · simp only [Bool.not_eq_true] at hca
        simp only [hca, Bool.not_false, if_true] at h
        cases h

/-- C10: in the PATCH and PUT task-update handlers the unassignment branch
is dead: `can_unassign_task` is never consulted, and a successful update
stores the request's (non-null) `owner_id` when it is provided and leaves
the assignee unchanged otherwise — in particular the assignee is never set
to null through PATCH or PUT. -/
theorem update_handlers_unassign_unreachable :
    (∀ db tid tu (u : User), (partial_update_task db tid tu u).2 = false) ∧
    (∀ db tid tu (u : User), (update_task_endpoint db tid tu u).2 = false) ∧
    (∀ db tid tu (u : User) t db' t', get_task db tid = some t →
      (partial_update_task db tid tu u).1 = Except.ok (db', t') →
      t'.owner_id = if tu.owner_id.isSome then tu.owner_id else t.owner_id) ∧
    (∀ db tid tu (u : User) t db' t', get_task db tid = some t →
      (update_task_endpoint db tid tu u).1 = Except.ok (db', t') →
      t'.owner_id = if tu.owner_id.isSome then tu.owner_id else t.owner_id) :=
  ⟨fun db tid tu u => task_update_handler_snd db tid tu u,
   fun db tid tu u => task_update_handler_snd db tid tu u,
   fun db tid tu u t db' t' hg h => task_update_handler_owner db tid tu u t db' t' hg h,
   fun db tid tu u t db' t' hg h => task_update_handler_owner db tid tu u t db' t' hg h⟩

/-- C10 (witness: a PATCH on `tA` that only sets the status succeeds, the
unassign flag is `false`, and the assignee is untouched). -/
theorem update_handlers_unassign_unreachable_witness :
    (partial_update_task dbOneTask 1 tu10 u1).2 = false ∧
    (update_task_endpoint dbOneTask 1 tu10 u1).2 = false ∧
    (get_task dbOneTask 1 = some tA ∧
      (partial_update_task dbOneTask 1 tu10 u1).1 =
        Except.ok (db10', { tA with status := TaskStatus.done }) ∧
      ({ tA with status := TaskStatus.done } : Task).owner_id =
        if tu10.owner_id.isSome then tu10.owner_id else tA.owner_id) :=
  ⟨update_handlers_unassign_unreachable.1 dbOneTask 1 tu10 u1,
   update_handlers_unassign_unreachable.2.1 dbOneTask 1 tu10 u1,
   rfl, rfl,
   update_handlers_unassign_unreachable.2.2.1 dbOneTask 1 tu10 u1 tA db10'
     { tA with status := TaskStatus.done } rfl rfl⟩

end SprintSync
